import Mathlib

/-
Shallow embedding of the external-data aggregation flow of src/app.py
(functions get_steam_id64, get_player_data, get_faceit_data).

Modelling conventions:
- Each external HTTP call is represented by the value the call would yield:
  either a raised transport/parsing exception (carrying its message where the
  code uses it) or a parsed JSON body.  JSON bodies are embedded as Lean
  structures whose optional keys are Option fields; `dict.get(k, d)` becomes
  `Option.getD`.
- Python `round` uses round-half-to-even; `m / 60` in double precision is
  exact at every tie (m = 60*q ± 30 with q well below 2^52), so the rounding
  of the true rational by round-half-to-even is the faithful model.
- Python truthiness on strings: both a missing key and the empty string are
  falsy; `if not x` on an optional string is modelled explicitly.
- The number of external calls actually issued is returned alongside the
  result where a claim speaks about calls being issued or skipped.
-/

/-- Outcome of one external HTTP call in the Steam helpers: either a raised
transport/parsing exception carrying its text, or a parsed JSON body
(`requests.get(...).json()` is one combined step in `app.py`, so a body parse
failure is also an `exn`). -/
inductive Http (α : Type) where
  | exn (msg : String)
  | ok (body : α)
deriving DecidableEq

/-- Drop every leading and trailing slash, as Python `s.strip("/")` does. -/
def stripSlashChars (l : List Char) : List Char :=
  ((l.dropWhile (fun c => c = '/')).reverse.dropWhile (fun c => c = '/')).reverse

/-- Split a character list on one separator character with Python
`str.split(sep)` semantics for a one-character separator: empty pieces are
kept and the empty input yields one empty piece. -/
def splitOnChar (c : Char) : List Char → List (List Char)
  | [] => [[]]
  | x :: xs =>
    let r := splitOnChar c xs
    if x = c then [] :: r
    else
      match r with
      | [] => [[x]]
      | y :: ys => (x :: y) :: ys

/-- Embedding of `input_query.strip("/").split("/")[-1]` (app.py line 181). -/
def lastSegment (s : String) : String :=
  String.mk ((splitOnChar '/' (stripSlashChars s.toList)).getLastD [])

/-- Python `str.isdigit`, restricted to ASCII digits (the only digits relevant
to 17-digit Steam ids): true iff the string is nonempty and all characters are
digits. -/
def pyIsdigit (s : String) : Bool :=
  !s.toList.isEmpty && s.toList.all Char.isDigit

/-- Body of the vanity-resolution response: `data['response']` may be absent
(KeyError, caught), and inside it `success` and `steamid` may each be absent. -/
structure VanityInner where
  success : Option Int
  steamid : Option String
deriving DecidableEq

/-- Top level of the vanity-resolution JSON body. -/
structure VanityBody where
  response : Option VanityInner
deriving DecidableEq

/-- Embedding of `get_steam_id64` (app.py lines 180-197).  The oracle is the
outcome the single vanity-resolution call would have; the second component of
the result counts the external calls actually issued.  Every failure path
(exception, missing key, non-success status) is caught and returns `none`. -/
def get_steam_id64 (oracle : Http VanityBody) (input_query : String) :
    Option String × Nat :=
  let identifier := lastSegment input_query
  if pyIsdigit identifier && identifier.length == 17 then
    (some identifier, 0)
  else
    match oracle with
    | .exn _ => (none, 1)
    | .ok data =>
      match data.response with
      | none => (none, 1)
      | some r =>
        match r.success with
        | none => (none, 1)
        | some s =>
          if s = 1 then
            match r.steamid with
            | none => (none, 1)
            | some sid => (some sid, 1)
          else (none, 1)

/-- Opaque profile blob returned by the player-summaries endpoint; the code
copies it through without inspecting it. -/
structure SteamProfile where
  blob : String
deriving DecidableEq

/-- Body of the player-summaries response, reduced to the list the code reads
at `resp_summary['response']['players']`. -/
structure SummaryBody where
  players : List SteamProfile
deriving DecidableEq

/-- One entry of the owned-games list: the code reads `game['appid']` and
`game['playtime_forever']` (minutes). -/
structure Game where
  appid : Nat
  playtime_forever : Nat
deriving DecidableEq

/-- Inner object of the owned-games response; the `games` key may be absent
(private profile). -/
structure GamesInner where
  games : Option (List Game)
deriving DecidableEq

/-- Body of the owned-games response; the `response` key may be absent. -/
structure GamesBody where
  response : Option GamesInner
deriving DecidableEq

/-- One entry of the per-game stat list: `stat['name']` and `stat['value']`. -/
structure StatEntry where
  name : String
  value : Int
deriving DecidableEq

/-- Inner object of the stats response; the `stats` key may be absent. -/
structure StatsInner where
  stats : Option (List StatEntry)
deriving DecidableEq

/-- Body of the stats response; the `playerstats` key may be absent. -/
structure StatsBody where
  playerstats : Option StatsInner
deriving DecidableEq

/-- Outcomes of the three Steam lookups `get_player_data` issues, in order:
player summaries, owned games, per-game stats. -/
structure SteamEnv where
  summary : Http SummaryBody
  games : Http GamesBody
  stats : Http StatsBody
deriving DecidableEq

/-- Result record of `get_player_data`: the Python dict, with one Option field
per key the function may set.  An error result carries only `error`. -/
structure PlayerData where
  error : Option String
  profile : Option SteamProfile
  playtime_cs2_hours : Option Nat
  stats : Option (List (String × Int))
  profile_public : Option Bool
deriving DecidableEq

/-- Fixed game id of interest (app.py line 175). -/
def CS2_APP_ID : Nat := 730

/-- Python 3 `round(m / 60)`: round to the nearest integer with ties going to
the even integer (banker's rounding).  The tie case is `m % 60 = 30`, where
`m / 60` is exactly halfway between two integers. -/
def pyRound60 (m : Nat) : Nat :=
  if m % 60 < 30 then m / 60
  else if 30 < m % 60 then m / 60 + 1
  else if (m / 60) % 2 = 0 then m / 60 else m / 60 + 1

/-- Scan of the owned-games list (app.py lines 215-218): the first game with
`appid == CS2_APP_ID` sets the hour count and the loop breaks; otherwise the
default 0 stands. -/
def playtimeScan : List Game → Nat
  | [] => 0
  | g :: gs =>
    if g.appid = CS2_APP_ID then pyRound60 g.playtime_forever else playtimeScan gs

/-- Hours derived from the owned-games body, guarded as in app.py line 214:
`if 'response' in resp_games and 'games' in resp_games['response']`. -/
def gamesHours (gb : GamesBody) : Nat :=
  match gb.response with
  | some gi =>
    match gi.games with
    | some gl => playtimeScan gl
    | none => 0
  | none => 0

/-- Python dict insertion: an existing key keeps its position and gets the new
value, a new key is appended. -/
def dictInsert (m : List (String × Int)) (k : String) (v : Int) :
    List (String × Int) :=
  if m.any (fun p => p.1 == k) then
    m.map (fun p => if p.1 == k then (k, v) else p)
  else m ++ [(k, v)]

/-- Flattening of the stat list into a name-to-value mapping (app.py lines
225-226). -/
def flattenStats (l : List StatEntry) : List (String × Int) :=
  l.foldl (fun acc e => dictInsert acc e.name e.value) []

/-- Error result: the dict `\x7b'error': msg\x7d`, with no other key. -/
def errorResult (msg : String) : PlayerData :=
  { error := some msg, profile := none, playtime_cs2_hours := none,
    stats := none, profile_public := none }

/-- Assembly of the success record from the stats response (app.py lines
223-230): a present `playerstats.stats` list is flattened and marks the
profile public; otherwise `profile_public` is false and no mapping is set. -/
def successData (p : SteamProfile) (hours : Nat) (stb : StatsBody) : PlayerData :=
  match stb.playerstats with
  | some pi =>
    match pi.stats with
    | some sl =>
      { error := none, profile := some p, playtime_cs2_hours := some hours,
        stats := some (flattenStats sl), profile_public := some true }
    | none =>
      { error := none, profile := some p, playtime_cs2_hours := some hours,
        stats := none, profile_public := some false }
  | none =>
    { error := none, profile := some p, playtime_cs2_hours := some hours,
      stats := none, profile_public := some false }

/-- Embedding of `get_player_data` (app.py lines 199-236).  The second
component counts the external calls issued.  Any exception in one of the three
lookups aborts with an error result carrying the exception text; partial
results are discarded. -/
def get_player_data (env : SteamEnv) (steam_id64 : String) : PlayerData × Nat :=
  if steam_id64 = "" then (errorResult "ID da Steam não encontrado.", 0)
  else
    match env.summary with
    | .exn e => (errorResult ("Erro ao buscar dados da Steam: " ++ e), 1)
    | .ok sb =>
      match sb.players with
      | [] => (errorResult "Jogador não encontrado com este SteamID.", 1)
      | p :: _ =>
        match env.games with
        | .exn e => (errorResult ("Erro ao buscar dados da Steam: " ++ e), 2)
        | .ok gb =>
          match env.stats with
          | .exn e => (errorResult ("Erro ao buscar dados da Steam: " ++ e), 3)
          | .ok stb => (successData p (gamesHours gb) stb, 3)

/-- Round-half-up of `m / 60`: the rounding rule named by the specification
(`⌊m / 60 + 1/2⌋`).  Stated from the spec's words, for comparison with the
code's `pyRound60`. -/
def roundHalfUp60 (m : Nat) : Nat := (m + 30) / 60

/-- Outcome of one FACEIT call: either a raised transport/parsing exception or
a response with a status code and a parsed body (bodies are only inspected on
the paths where the code parses them). -/
inductive FResp (α : Type) where
  | exn
  | resp (status : Nat) (body : α)
deriving DecidableEq

/-- Body of the player-search response: the code reads `player_id` and stores
the whole body as the profile; the rest is an opaque blob. -/
structure SearchBody where
  player_id : Option String
  blob : String
deriving DecidableEq

/-- Body of the lifetime-stats response: `resp_stats.json().get('lifetime', \x7b\x7d)`. -/
structure LifetimeBody where
  lifetime : Option (List (String × String))
deriving DecidableEq

/-- Derived per-match stats sub-record (app.py lines 296-303). -/
structure MatchStats where
  result : String
  score : String
  map : String
  kills : String
  deaths : String
  assists : String
deriving DecidableEq

/-- One match-history item: the code reads `match.get('match_id')`, may set a
`stats` key, and otherwise copies the entry through (opaque blob). -/
structure HistoryItem where
  match_id : Option String
  blob : String
  stats : Option MatchStats
deriving DecidableEq

/-- Body of the match-history response: `resp_history.json().get('items', [])`. -/
structure HistoryBody where
  items : Option (List HistoryItem)
deriving DecidableEq

/-- Stat block of one player inside a match detail: `Result`, `Kills`,
`Deaths`, `Assists`, each possibly absent. -/
structure PlayerStatsBlock where
  result : Option String
  kills : Option String
  deaths : Option String
  assists : Option String
deriving DecidableEq

/-- One player inside a team of a match detail. -/
structure MatchPlayer where
  player_id : Option String
  player_stats : Option PlayerStatsBlock
deriving DecidableEq

/-- One team inside a round of a match detail: `team.get('players', [])`. -/
structure MatchTeam where
  players : Option (List MatchPlayer)
deriving DecidableEq

/-- Round-level stats of a match detail: `Score` and `Map`, possibly absent. -/
structure RoundStats where
  score : Option String
  map : Option String
deriving DecidableEq

/-- One round of a match detail. -/
structure MatchRound where
  teams : Option (List MatchTeam)
  round_stats : Option RoundStats
deriving DecidableEq

/-- Body of a per-match detail response; the `rounds` key may be absent
(the code then substitutes the default `[\x7b\x7d]`). -/
structure MatchDetailBody where
  rounds : Option (List MatchRound)
deriving DecidableEq

/-- Outcomes of the FACEIT calls `get_faceit_data` issues: player search,
lifetime stats, match history, and per-match detail keyed by match id. -/
structure FaceitEnv where
  search : FResp SearchBody
  stats : FResp LifetimeBody
  history : FResp HistoryBody
  matchDetail : String → FResp MatchDetailBody

/-- Result record of `get_faceit_data` on its non-`None` paths: by the time
any dict is returned, `profile`, `stats` and `history` have all been set. -/
structure FaceitData where
  profile : SearchBody
  stats : List (String × String)
  history : List HistoryItem
deriving DecidableEq

/-- Empty player-stat block, the default of `player.get('player_stats', \x7b\x7d)`. -/
def emptyPSB : PlayerStatsBlock := ⟨none, none, none, none⟩

/-- Empty round-stats block, the default of `.get('round_stats', \x7b\x7d)`. -/
def emptyRS : RoundStats := ⟨none, none⟩

/-- Python truthiness of an optional string: a missing key and the empty
string are both falsy (`if not player_id`, `if not match_id`). -/
def pyTruthyId : Option String → Option String
  | none => none
  | some s => if s.isEmpty then none else some s

/-- Scan of `rounds[0].teams[*].players[*]` for the searched player id (app.py
lines 291-293): first matching player wins, and the scan stops there. -/
def findInTeams (pid : String) : List MatchTeam → Option MatchPlayer
  | [] => none
  | t :: ts =>
    match (t.players.getD []).find? (fun p => p.player_id == some pid) with
    | some p => some p
    | none => findInTeams pid ts

/-- Whether a history item carries a truthy `match_id` (app.py lines 277-279:
`if not match_id: continue`). -/
def hasId (m : HistoryItem) : Bool :=
  match m.match_id with
  | none => false
  | some s => !s.isEmpty

/-- The match id used for the detail lookup of an item that has one. -/
def itemId (m : HistoryItem) : String := m.match_id.getD ""

/-- Enrichment of one history item from its per-match detail outcome (app.py
lines 281-309).  `.error ()` models an exception escaping to the outer
`except` (transport failure, or the IndexError of `rounds[0]` when `rounds`
is present but empty); a non-200 detail response keeps the raw item; on 200
the searched player is looked up and, when found, the derived stats sub-record
is attached. -/
def enrichOne (pid : String) (resp : FResp MatchDetailBody) (m : HistoryItem) :
    Except Unit HistoryItem :=
  match resp with
  | .exn => .error ()
  | .resp code body =>
    if code ≠ 200 then .ok m
    else
      match body.rounds with
      | some [] => .error ()
      | none => .ok m
      | some (r0 :: _) =>
        match findInTeams pid (r0.teams.getD []) with
        | none => .ok m
        | some p =>
          let ps := p.player_stats.getD emptyPSB
          let rs := r0.round_stats.getD emptyRS
          .ok { m with stats := some {
            result := if ps.result == some "1" then "Venceu" else "Perdeu",
            score := rs.score.getD "N/A",
            map := rs.map.getD "N/A",
            kills := ps.kills.getD "0",
            deaths := ps.deaths.getD "0",
            assists := ps.assists.getD "0" } }

/-- The history enrichment loop (app.py lines 276-309): items without a truthy
match id are skipped; an exception while handling an item aborts the whole
loop; otherwise the enriched (or raw) item is appended in order. -/
def processMatches (pid : String) (md : String → FResp MatchDetailBody) :
    List HistoryItem → Except Unit (List HistoryItem)
  | [] => .ok []
  | m :: ms =>
    if hasId m then
      match enrichOne pid (md (itemId m)) m with
      | .error e => .error e
      | .ok m2 =>
        match processMatches pid md ms with
        | .error e => .error e
        | .ok rest => .ok (m2 :: rest)
    else processMatches pid md ms

/-- Embedding of `get_faceit_data` (app.py lines 239-317).  The single `none`
sentinel covers: search exception, search non-200, missing/empty player id,
and any exception in the later steps (stats, history, per-match details) —
in the last case any partially built history is discarded. -/
def get_faceit_data (env : FaceitEnv) : Option FaceitData :=
  match env.search with
  | .exn => none
  | .resp code body =>
    if code ≠ 200 then none
    else
      match pyTruthyId body.player_id with
      | none => none
      | some pid =>
        match env.stats with
        | .exn => none
        | .resp sc sb =>
          let lstats := if sc = 200 then sb.lifetime.getD [] else []
          match env.history with
          | .exn => none
          | .resp hc hb =>
            if hc ≠ 200 then
              some { profile := body, stats := lstats, history := [] }
            else
              match processMatches pid env.matchDetail (hb.items.getD []) with
              | .error _ => none
              | .ok l => some { profile := body, stats := lstats, history := l }

/-
Helper lemmas shared by the theorems below.
-/

/-- The playtime field of a success record is the computed hour count,
whatever the stats response looked like. -/
lemma successData_playtime (p : SteamProfile) (h : Nat) (stb : StatsBody) :
    (successData p h stb).playtime_cs2_hours = some h := by
  rcases stb with ⟨_ | ⟨_ | _⟩⟩ <;> rfl

/-- Reduction of `get_player_data` on the all-lookups-answered path. -/
lemma get_player_data_ok (sb : SummaryBody) (gb : GamesBody) (stb : StatsBody)
    (sid : String) (p : SteamProfile) (l : List SteamProfile)
    (hsid : sid ≠ "") (hp : sb.players = p :: l) :
    get_player_data ⟨.ok sb, .ok gb, .ok stb⟩ sid
      = (successData p (gamesHours gb) stb, 3) := by
  simp [get_player_data, hsid, hp]

/-- Characterisation of the code's rounding: `pyRound60 m` is a nearest
integer to `m / 60`, and at an exact tie it is the even one. -/
lemma pyRound60_nearest (m : Nat) :
    (m ≤ 60 * pyRound60 m + 30 ∧ 60 * pyRound60 m ≤ m + 30) ∧
    ((60 * pyRound60 m = m + 30 ∨ m = 60 * pyRound60 m + 30) → pyRound60 m % 2 = 0) := by
  unfold pyRound60
  split_ifs <;> omega

/-- A games list without the tracked app id leaves the scan at its default. -/
lemma playtimeScan_eq_zero (gl : List Game) (h : ∀ g ∈ gl, g.appid ≠ CS2_APP_ID) :
    playtimeScan gl = 0 := by
  induction gl with
  | nil => rfl
  | cons g gs ih =>
    have hg := h g (List.mem_cons_self g gs)
    simp only [playtimeScan]
    rw [if_neg hg]
    exact ih fun x hx => h x (List.mem_cons_of_mem _ hx)

/-- Inserting a fresh key into a Python dict appends it. -/
lemma dictInsert_append (acc : List (String × Int)) (k : String) (v : Int)
    (h : ∀ p ∈ acc, p.1 ≠ k) : dictInsert acc k v = acc ++ [(k, v)] := by
  have hany : acc.any (fun p => p.1 == k) = false := by
    rw [List.any_eq_false]
    intro p hp
    simpa using h p hp
  simp [dictInsert, hany]

/-- Folding Python dict insertion over entries with pairwise distinct names
appends them all in order. -/
lemma flattenStats_aux (l : List StatEntry) :
    ∀ acc : List (String × Int), l.Pairwise (fun a b => a.name ≠ b.name) →
    (∀ e ∈ l, ∀ p ∈ acc, p.1 ≠ e.name) →
    l.foldl (fun acc e => dictInsert acc e.name e.value) acc
      = acc ++ l.map (fun e => (e.name, e.value)) := by
  induction l with
  | nil => intro acc _ _; simp
  | cons e es ih =>
    intro acc hd hdisj
    obtain ⟨hhead, htail⟩ := List.pairwise_cons.mp hd
    rw [List.foldl_cons, dictInsert_append acc e.name e.value (hdisj e (by simp))]
    rw [ih (acc ++ [(e.name, e.value)]) htail ?_]
    · simp
    · intro e' he' p hp
      rcases List.mem_append.mp hp with hpa | hpb
      · exact hdisj e' (List.mem_cons_of_mem _ he') p hpa
      · have : p = (e.name, e.value) := by simpa using hpb
        rw [this]
        exact hhead e' he'

/-- C1 (counterexample): the claim names round-half-up rounding, but Python 3
`round` rounds ties to even.  With the tracked game at
`playtime_forever = 150` the code yields `round(2.5) = 2` hours, while
round-half-up of `150 / 60` is 3. -/
theorem C1_counterexample :
    (get_player_data ⟨.ok ⟨[⟨"p"⟩]⟩, .ok ⟨some ⟨some [⟨730, 150⟩]⟩⟩, .ok ⟨none⟩⟩
        "76561198000000001").1.playtime_cs2_hours = some 2 ∧
    roundHalfUp60 150 = 3 ∧
    (get_player_data ⟨.ok ⟨[⟨"p"⟩]⟩, .ok ⟨some ⟨some [⟨730, 150⟩]⟩⟩, .ok ⟨none⟩⟩
        "76561198000000001").1.playtime_cs2_hours ≠ some (roundHalfUp60 150) := by
  exact ⟨by decide, by decide, by decide⟩

/-- C1 (amended): for every owned-games response whose game list starts with
the tracked game at `playtime_forever = m`, the playtime-hours value is a
nearest integer to `m / 60` with ties going to the even integer (Python 3
`round`; in particular `m = 125` gives 2), and it is 0 when no game in the
list has the tracked app id or the game list itself is absent. -/
theorem C1_playtime_rounding (m : Nat) (prof : SteamProfile) (rest : List Game)
    (stb : StatsBody) (sid : String) (hsid : sid ≠ "") :
    (∃ q, (get_player_data ⟨.ok ⟨[prof]⟩, .ok ⟨some ⟨some (⟨CS2_APP_ID, m⟩ :: rest)⟩⟩, .ok stb⟩
            sid).1.playtime_cs2_hours = some q ∧
        (m ≤ 60 * q + 30 ∧ 60 * q ≤ m + 30) ∧
        ((60 * q = m + 30 ∨ m = 60 * q + 30) → q % 2 = 0)) ∧
    (∀ gl : List Game, (∀ g ∈ gl, g.appid ≠ CS2_APP_ID) →
      (get_player_data ⟨.ok ⟨[prof]⟩, .ok ⟨some ⟨some gl⟩⟩, .ok stb⟩
          sid).1.playtime_cs2_hours = some 0) ∧
    (get_player_data ⟨.ok ⟨[prof]⟩, .ok ⟨some ⟨none⟩⟩, .ok stb⟩
        sid).1.playtime_cs2_hours = some 0 := by
  refine ⟨⟨pyRound60 m, ?_, (pyRound60_nearest m).1, (pyRound60_nearest m).2⟩, ?_, ?_⟩
  · rw [get_player_data_ok ⟨[prof]⟩ _ stb sid prof [] hsid rfl]
    simp [successData_playtime, gamesHours, playtimeScan]
  · intro gl hgl
    rw [get_player_data_ok ⟨[prof]⟩ _ stb sid prof [] hsid rfl]
    simp only [successData_playtime, gamesHours]
    rw [playtimeScan_eq_zero gl hgl]
  · rw [get_player_data_ok ⟨[prof]⟩ _ stb sid prof [] hsid rfl]
    simp only [successData_playtime, gamesHours]

/-- C1 (witness): instantiation at the spec's own example `m = 125`. -/
theorem C1_playtime_rounding_witness :
    (get_player_data ⟨.ok ⟨[⟨"p"⟩]⟩, .ok ⟨some ⟨some [⟨730, 125⟩]⟩⟩, .ok ⟨none⟩⟩
        "76561198000000001").1.playtime_cs2_hours = some 2 := by
  obtain ⟨⟨q, hq, ⟨ha, hb⟩, -⟩, -, -⟩ :=
    C1_playtime_rounding 125 ⟨"p"⟩ [] ⟨none⟩ "76561198000000001" (by decide)
  have hq2 : q = 2 := by omega
  rw [hq2] at hq
  exact hq

/-- C4: an input whose identifier segment is purely numeric and exactly 17
characters long is returned unchanged, with zero external calls issued,
whatever the vanity-resolution oracle would have answered. -/
theorem C4_canonical_passthrough (oracle : Http VanityBody) (q : String)
    (hd : pyIsdigit (lastSegment q) = true)
    (hl : (lastSegment q).length = 17) :
    get_steam_id64 oracle q = (some (lastSegment q), 0) := by
  simp [get_steam_id64, hd, hl]

/-- C4 (witness): a canonical 17-digit id inside a profile URL. -/
theorem C4_canonical_passthrough_witness :
    get_steam_id64 (Http.exn "down")
      "https://steamcommunity.com/profiles/76561198000000000"
      = (some "76561198000000000", 0) := by
  have h := C4_canonical_passthrough (Http.exn "down")
    "https://steamcommunity.com/profiles/76561198000000000" (by decide) (by decide)
  have hseg : lastSegment "https://steamcommunity.com/profiles/76561198000000000"
      = "76561198000000000" := by decide
  rw [hseg] at h
  exact h

/-- C5: a non-canonical identifier always triggers exactly one external call;
the result is the resolved id exactly when the response carries
`success = 1` with a `steamid`, and the `none` sentinel in every other case
(exception, missing keys, non-success status) — never an exception. -/
theorem C5_vanity_resolution (oracle : Http VanityBody) (q : String)
    (h : ¬(pyIsdigit (lastSegment q) = true ∧ (lastSegment q).length = 17)) :
    (get_steam_id64 oracle q).2 = 1 ∧
    (∀ msg, oracle = .exn msg → (get_steam_id64 oracle q).1 = none) ∧
    (∀ d, oracle = .ok d → d.response = none → (get_steam_id64 oracle q).1 = none) ∧
    (∀ d r, oracle = .ok d → d.response = some r → r.success = none →
      (get_steam_id64 oracle q).1 = none) ∧
    (∀ d r s, oracle = .ok d → d.response = some r → r.success = some s → s ≠ 1 →
      (get_steam_id64 oracle q).1 = none) ∧
    (∀ d r, oracle = .ok d → d.response = some r → r.success = some 1 →
      r.steamid = none → (get_steam_id64 oracle q).1 = none) ∧
    (∀ d r sid, oracle = .ok d → d.response = some r → r.success = some 1 →
      r.steamid = some sid → (get_steam_id64 oracle q).1 = some sid) := by
  have hcond : (pyIsdigit (lastSegment q) && ((lastSegment q).length == 17)) = false := by
    cases hb : pyIsdigit (lastSegment q) with
    | false => simp
    | true =>
      have h2 : (lastSegment q).length ≠ 17 := fun hc => h ⟨hb, hc⟩
      simp [h2]
  refine ⟨?_, ?_, ?_, ?_, ?_, ?_, ?_⟩
  · rcases oracle with msg | d
    · simp [get_steam_id64, hcond]
    · rcases d with ⟨_ | ⟨su, si⟩⟩
      · simp [get_steam_id64, hcond]
      · rcases su with _ | s
        · simp [get_steam_id64, hcond]
        · by_cases hs : s = 1
          · rcases si with _ | sid <;> simp [get_steam_id64, hcond, hs]
          · simp [get_steam_id64, hcond, hs]
  · intro msg hm; subst hm; simp [get_steam_id64, hcond]
  · intro d hd2 hr; subst hd2; simp [get_steam_id64, hcond, hr]
  · intro d r hd2 hr hs; subst hd2; simp [get_steam_id64, hcond, hr, hs]
  · intro d r s hd2 hr hs hne; subst hd2; simp [get_steam_id64, hcond, hr, hs, hne]
  · intro d r hd2 hr hs hsi; subst hd2; simp [get_steam_id64, hcond, hr, hs, hsi]
  · intro d r sid hd2 hr hs hsi; subst hd2; simp [get_steam_id64, hcond, hr, hs, hsi]

/-- C5 (witness): a vanity name with a transport failure yields the sentinel
after one call. -/
theorem C5_vanity_resolution_witness :
    (get_steam_id64 (Http.exn "timeout") "examplevanity").1 = none ∧
    (get_steam_id64 (Http.exn "timeout") "examplevanity").2 = 1 := by
  obtain ⟨h1, h2, -, -, -, -, -⟩ :=
    C5_vanity_resolution (Http.exn "timeout") "examplevanity" (by decide)
  exact ⟨h2 "timeout" rfl, h1⟩

/-- C6: an answered profile-summary lookup whose player list is empty makes
the aggregator return the player-not-found error result after exactly one
call — the owned-games and stats lookups are never issued, whatever their
outcomes would have been. -/
theorem C6_empty_players (env : SteamEnv) (sid : String) (hsid : sid ≠ "")
    (hsum : env.summary = .ok ⟨[]⟩) :
    get_player_data env sid
      = (errorResult "Jogador não encontrado com este SteamID.", 1) := by
  simp [get_player_data, hsid, hsum]

/-- C6 (witness): concrete empty player list, with the two later lookups set
to outcomes that would change the result were they consulted. -/
theorem C6_empty_players_witness :
    get_player_data ⟨.ok ⟨[]⟩, .exn "boom", .exn "boom"⟩ "76561198000000001"
      = (errorResult "Jogador não encontrado com este SteamID.", 1) := by
  exact C6_empty_players ⟨.ok ⟨[]⟩, .exn "boom", .exn "boom"⟩
    "76561198000000001" (by decide) rfl

/-- C7: a transport exception in any of the three lookup steps makes the
aggregator return, immediately after that step, an error-only result whose
message carries the exception text; results of already-completed steps are
absent from the returned record (`errorResult` has every other field
`none`). -/
theorem C7_exception_abort (env : SteamEnv) (sid msg : String) (hsid : sid ≠ "") :
    (env.summary = .exn msg →
       get_player_data env sid
         = (errorResult ("Erro ao buscar dados da Steam: " ++ msg), 1)) ∧
    (∀ sb p l, env.summary = .ok sb → sb.players = p :: l → env.games = .exn msg →
       get_player_data env sid
         = (errorResult ("Erro ao buscar dados da Steam: " ++ msg), 2)) ∧
    (∀ sb p l gb, env.summary = .ok sb → sb.players = p :: l →
       env.games = .ok gb → env.stats = .exn msg →
       get_player_data env sid
         = (errorResult ("Erro ao buscar dados da Steam: " ++ msg), 3)) := by
  refine ⟨?_, ?_, ?_⟩
  · intro h1
    simp [get_player_data, hsid, h1]
  · intro sb p l h1 h2 h3
    simp [get_player_data, hsid, h1, h2, h3]
  · intro sb p l gb h1 h2 h3 h4
    simp [get_player_data, hsid, h1, h2, h3, h4]

/-- C7 (witness): exception during the owned-games step, after a successful
summary step whose partial result is then discarded. -/
theorem C7_exception_abort_witness :
    get_player_data ⟨.ok ⟨[⟨"p"⟩]⟩, .exn "timeout", .ok ⟨none⟩⟩ "76561198000000001"
      = (errorResult "Erro ao buscar dados da Steam: timeout", 2) := by
  obtain ⟨-, h2, -⟩ :=
    C7_exception_abort ⟨.ok ⟨[⟨"p"⟩]⟩, .exn "timeout", .ok ⟨none⟩⟩
      "76561198000000001" "timeout" (by decide)
  exact h2 ⟨[⟨"p"⟩]⟩ ⟨"p"⟩ [] rfl rfl rfl

/-- C8: an answered stats lookup containing `playerstats.stats` flattens the
entries (here stated for pairwise-distinct names) into the name-to-value
mapping and marks the profile public; when `playerstats` or its `stats` key
is absent the result marks the profile non-public, has no stat mapping, and
is a success (`error = none`). -/
theorem C8_stats_visibility (env : SteamEnv) (sid : String) (sb : SummaryBody)
    (p : SteamProfile) (l : List SteamProfile) (gb : GamesBody)
    (hsid : sid ≠ "") (hsum : env.summary = .ok sb) (hp : sb.players = p :: l)
    (hg : env.games = .ok gb) :
    (∀ stl, env.stats = .ok ⟨some ⟨some stl⟩⟩ →
        stl.Pairwise (fun a b => a.name ≠ b.name) →
        get_player_data env sid =
          ({ error := none, profile := some p,
             playtime_cs2_hours := some (gamesHours gb),
             stats := some (stl.map (fun e => (e.name, e.value))),
             profile_public := some true }, 3)) ∧
    (env.stats = .ok ⟨none⟩ →
        get_player_data env sid =
          ({ error := none, profile := some p,
             playtime_cs2_hours := some (gamesHours gb),
             stats := none, profile_public := some false }, 3)) ∧
    (env.stats = .ok ⟨some ⟨none⟩⟩ →
        get_player_data env sid =
          ({ error := none, profile := some p,
             playtime_cs2_hours := some (gamesHours gb),
             stats := none, profile_public := some false }, 3)) := by
  refine ⟨?_, ?_, ?_⟩
  · intro stl hst hnd
    have hflat : flattenStats stl = stl.map (fun e => (e.name, e.value)) := by
      have := flattenStats_aux stl [] hnd (by simp)
      simpa [flattenStats] using this
    simp [get_player_data, successData, hsid, hsum, hp, hg, hst, hflat]
  · intro hst
    simp [get_player_data, successData, hsid, hsum, hp, hg, hst]
  · intro hst
    simp [get_player_data, successData, hsid, hsum, hp, hg, hst]

/-- C8 (witness): the private-stats case of the spec's example — no
`playerstats.stats` key, so `profile_public` is false and no mapping. -/
theorem C8_stats_visibility_witness :
    get_player_data ⟨.ok ⟨[⟨"p"⟩]⟩, .ok ⟨none⟩, .ok ⟨none⟩⟩ "76561198000000001"
      = ({ error := none, profile := some ⟨"p"⟩,
           playtime_cs2_hours := some 0,
           stats := none, profile_public := some false }, 3) := by
  obtain ⟨-, h2, -⟩ :=
    C8_stats_visibility ⟨.ok ⟨[⟨"p"⟩]⟩, .ok ⟨none⟩, .ok ⟨none⟩⟩
      "76561198000000001" ⟨[⟨"p"⟩]⟩ ⟨"p"⟩ [] ⟨none⟩ (by decide) rfl rfl rfl
  exact h2 rfl

/-- A non-200 detail response leaves the raw history item untouched. -/
lemma enrichOne_non200 (pid : String) (c : Nat) (b : MatchDetailBody)
    (m : HistoryItem) (hc : c ≠ 200) : enrichOne pid (.resp c b) m = .ok m := by
  simp [enrichOne, hc]

/-- A 200 detail response whose `rounds` key is absent enriches nothing
(the default `[\x7b\x7d]` has no teams). -/
lemma enrichOne_norounds (pid : String) (b : MatchDetailBody) (m : HistoryItem)
    (hr : b.rounds = none) : enrichOne pid (.resp 200 b) m = .ok m := by
  simp [enrichOne, hr]

/-- A 200 detail response in which the searched player does not appear keeps
the raw item. -/
lemma enrichOne_notfound (pid : String) (b : MatchDetailBody) (m : HistoryItem)
    (r0 : MatchRound) (rs : List MatchRound) (hr : b.rounds = some (r0 :: rs))
    (hp : findInTeams pid (r0.teams.getD []) = none) :
    enrichOne pid (.resp 200 b) m = .ok m := by
  simp [enrichOne, hr, hp]

/-- A 200 detail response in which the searched player is found attaches the
derived stats sub-record. -/
lemma enrichOne_found (pid : String) (b : MatchDetailBody) (m : HistoryItem)
    (r0 : MatchRound) (rs : List MatchRound) (p : MatchPlayer)
    (hr : b.rounds = some (r0 :: rs))
    (hp : findInTeams pid (r0.teams.getD []) = some p) :
    enrichOne pid (.resp 200 b) m = .ok { m with stats := some {
      result := if (p.player_stats.getD emptyPSB).result == some "1"
                then "Venceu" else "Perdeu",
      score := (r0.round_stats.getD emptyRS).score.getD "N/A",
      map := (r0.round_stats.getD emptyRS).map.getD "N/A",
      kills := (p.player_stats.getD emptyPSB).kills.getD "0",
      deaths := (p.player_stats.getD emptyPSB).deaths.getD "0",
      assists := (p.player_stats.getD emptyPSB).assists.getD "0" } } := by
  simp [enrichOne, hr, hp]

/-- A detail response that is not an exception and does not trigger the
`rounds[0]` IndexError always enriches successfully, and enrichment never
touches the item's id or payload. -/
lemma enrichOne_ok_exists (pid : String) (c : Nat) (b : MatchDetailBody)
    (m : HistoryItem) (h : c = 200 → b.rounds ≠ some []) :
    ∃ e, enrichOne pid (.resp c b) m = .ok e ∧
      e.match_id = m.match_id ∧ e.blob = m.blob := by
  by_cases hc : c = 200
  · subst hc
    cases hrounds : b.rounds with
    | none => exact ⟨m, enrichOne_norounds pid b m hrounds, rfl, rfl⟩
    | some rl =>
      cases rl with
      | nil => exact absurd hrounds (h rfl)
      | cons r0 rs =>
        cases hp : findInTeams pid (r0.teams.getD []) with
        | none => exact ⟨m, enrichOne_notfound pid b m r0 rs hrounds hp, rfl, rfl⟩
        | some p => exact ⟨_, enrichOne_found pid b m r0 rs p hrounds hp, rfl, rfl⟩
  · exact ⟨m, enrichOne_non200 pid c b m hc, rfl, rfl⟩

/-- Every enrichment outcome preserves the item's id and payload. -/
lemma enrichOne_ok_fields (pid : String) (r : FResp MatchDetailBody)
    (m e : HistoryItem) (h : enrichOne pid r m = .ok e) :
    e.match_id = m.match_id ∧ e.blob = m.blob := by
  rcases r with _ | ⟨c, b⟩
  · simp [enrichOne] at h
  · by_cases hc : c = 200
    · subst hc
      cases hrounds : b.rounds with
      | none =>
        rw [enrichOne_norounds pid b m hrounds] at h
        rw [← Except.ok.inj h]; exact ⟨rfl, rfl⟩
      | some rl =>
        cases rl with
        | nil => simp [enrichOne, hrounds] at h
        | cons r0 rs =>
          cases hp : findInTeams pid (r0.teams.getD []) with
          | none =>
            rw [enrichOne_notfound pid b m r0 rs hrounds hp] at h
            rw [← Except.ok.inj h]; exact ⟨rfl, rfl⟩
          | some p =>
            rw [enrichOne_found pid b m r0 rs p hrounds hp] at h
            rw [← Except.ok.inj h]; exact ⟨rfl, rfl⟩
    · rw [enrichOne_non200 pid c b m hc] at h
      rw [← Except.ok.inj h]; exact ⟨rfl, rfl⟩

/-- The team/player scan is the first hit in the flattened
`teams[*].players[*]` traversal order. -/
lemma findInTeams_eq_find? (pid : String) : ∀ ts : List MatchTeam,
    findInTeams pid ts
      = ((ts.flatMap fun t => t.players.getD []).find?
          fun q => q.player_id == some pid) := by
  intro ts
  induction ts with
  | nil => rfl
  | cons t ts ih =>
    rw [List.flatMap_cons, List.find?_append, ← ih]
    cases hf : (t.players.getD []).find? (fun q => q.player_id == some pid) <;>
      simp [findInTeams, hf]

/-- Skipped items aside, the loop processes every item; an item without a
truthy match id contributes nothing. -/
lemma processMatches_eq_filter (pid : String) (md : String → FResp MatchDetailBody) :
    ∀ items : List HistoryItem,
    processMatches pid md items = processMatches pid md (items.filter hasId) := by
  intro items
  induction items with
  | nil => rfl
  | cons m ms ih =>
    by_cases hm : hasId m = true
    · rw [List.filter_cons_of_pos hm]
      simp only [processMatches]
      rw [if_pos hm, if_pos hm, ih]
    · rw [List.filter_cons_of_neg (by simpa using hm)]
      simp only [processMatches]
      rw [if_neg hm]
      exact ih

/-- A successful loop over items that all carry a match id returns one output
item per input item, in order, each being that input's enrichment outcome. -/
lemma processMatches_ok_spec (pid : String) (md : String → FResp MatchDetailBody) :
    ∀ (items l : List HistoryItem), (∀ m ∈ items, hasId m = true) →
    processMatches pid md items = .ok l →
    l.length = items.length ∧
    ∀ i (h1 : i < items.length) (h2 : i < l.length),
      enrichOne pid (md (itemId (items.get ⟨i, h1⟩))) (items.get ⟨i, h1⟩)
        = .ok (l.get ⟨i, h2⟩) := by
  intro items
  induction items with
  | nil =>
    intro l _ hpm
    simp only [processMatches] at hpm
    have hl : l = [] := by
      cases hpm; rfl
    subst hl
    exact ⟨rfl, fun i h1 _ => absurd h1 (Nat.not_lt_zero i)⟩
  | cons m ms ih =>
    intro l hall hpm
    have hm : hasId m = true := hall m (List.mem_cons_self m ms)
    simp only [processMatches] at hpm
    rw [if_pos hm] at hpm
    cases henr : enrichOne pid (md (itemId m)) m with
    | error e => rw [henr] at hpm; simp at hpm
    | ok m2 =>
      rw [henr] at hpm
      cases hrest : processMatches pid md ms with
      | error e => rw [hrest] at hpm; simp at hpm
      | ok rest =>
        rw [hrest] at hpm
        simp only at hpm
        have hl : l = m2 :: rest := (Except.ok.inj hpm).symm
        subst hl
        obtain ⟨hlen, hidx⟩ :=
          ih rest (fun x hx => hall x (List.mem_cons_of_mem _ hx)) hrest
        refine ⟨by simp [hlen], ?_⟩
        intro i h1 h2
        cases i with
        | zero => simpa using henr
        | succ j =>
          have hj1 : j < ms.length := Nat.succ_lt_succ_iff.mp h1
          have hj2 : j < rest.length := Nat.succ_lt_succ_iff.mp h2
          simpa using hidx j hj1 hj2

/-- When every item carries a match id and every enrichment succeeds, the
whole loop succeeds. -/
lemma processMatches_ok_exists (pid : String) (md : String → FResp MatchDetailBody) :
    ∀ items : List HistoryItem, (∀ m ∈ items, hasId m = true) →
    (∀ m ∈ items, ∃ e, enrichOne pid (md (itemId m)) m = .ok e) →
    ∃ l, processMatches pid md items = .ok l := by
  intro items
  induction items with
  | nil => intro _ _; exact ⟨[], rfl⟩
  | cons m ms ih =>
    intro hall hok
    obtain ⟨e, he⟩ := hok m (List.mem_cons_self m ms)
    obtain ⟨l, hl⟩ := ih (fun x hx => hall x (List.mem_cons_of_mem _ hx))
      (fun x hx => hok x (List.mem_cons_of_mem _ hx))
    refine ⟨e :: l, ?_⟩
    simp only [processMatches]
    rw [if_pos (hall m (List.mem_cons_self m ms)), he, hl]

/-- The loop consults the detail oracle only at the ids of items that carry
one: two oracles that agree there produce the same outcome. -/
lemma processMatches_congr (pid : String) (md md' : String → FResp MatchDetailBody) :
    ∀ items : List HistoryItem,
    (∀ m ∈ items, hasId m = true → md' (itemId m) = md (itemId m)) →
    processMatches pid md' items = processMatches pid md items := by
  intro items
  induction items with
  | nil => intro _; rfl
  | cons m ms ih =>
    intro h
    have ihms := ih fun x hx hh => h x (List.mem_cons_of_mem _ hx) hh
    by_cases hm : hasId m = true
    · simp only [processMatches]
      rw [if_pos hm, if_pos hm, h m (List.mem_cons_self m ms) hm, ihms]
    · simp only [processMatches]
      rw [if_neg hm, if_neg hm]
      exact ihms

/-- Reduction of `get_faceit_data` on the path where the search answered 200
with a truthy player id and the history lookup answered 200. -/
lemma get_faceit_data_success (sb : SearchBody) (sc : Nat) (lb : LifetimeBody)
    (hb : HistoryBody) (md : String → FResp MatchDetailBody) (pid : String)
    (hpid : pyTruthyId sb.player_id = some pid) :
    get_faceit_data ⟨.resp 200 sb, .resp sc lb, .resp 200 hb, md⟩
      = (match processMatches pid md (hb.items.getD []) with
         | .error _ => none
         | .ok l => some { profile := sb,
                           stats := if sc = 200 then lb.lifetime.getD [] else [],
                           history := l }) := by
  cases hpm : processMatches pid md (hb.items.getD []) <;>
    simp [get_faceit_data, hpid, hpm]

/-- Match-detail oracle for the C2 example: item `m2` answers non-200, the
others answer 200 with the searched player present. -/
def mdExample (s : String) : FResp MatchDetailBody :=
  if s = "m2" then .resp 404 ⟨none⟩
  else .resp 200 ⟨some [⟨some [⟨some [⟨some "p1",
    some ⟨some "1", some "20", some "10", some "5"⟩⟩]⟩],
    some ⟨some "13 / 7", some "de_dust2"⟩⟩]⟩

/-- History items for the C2 example: three raw entries, ids m1, m2, m3. -/
def itemsExample : List HistoryItem :=
  [⟨some "m1", "a", none⟩, ⟨some "m2", "b", none⟩, ⟨some "m3", "c", none⟩]

/-- C2: for a history response whose (at most 10) raw items each carry a match
id, and whose detail lookups do not raise, the output history has exactly one
entry per item in the original order; an item whose detail lookup answered
non-200 is passed through raw (no stats sub-record), and every item whose
lookup answered 200 with the searched player present is enriched — one
failing lookup never affects the other items. -/
theorem C2_per_item_degradation (sb : SearchBody) (pid : String) (sc : Nat)
    (lb : LifetimeBody) (hb : HistoryBody) (items : List HistoryItem)
    (md : String → FResp MatchDetailBody)
    (hpid : pyTruthyId sb.player_id = some pid)
    (hitems : hb.items = some items)
    (_hlen10 : items.length ≤ 10)
    (hraw : ∀ m ∈ items, hasId m = true ∧ m.stats = none)
    (hwf : ∀ m ∈ items, ∃ c b, md (itemId m) = .resp c b ∧
      (c = 200 → b.rounds ≠ some [])) :
    ∃ d, get_faceit_data ⟨.resp 200 sb, .resp sc lb, .resp 200 hb, md⟩ = some d ∧
      d.history.length = items.length ∧
      (∀ i (h1 : i < items.length) (h2 : i < d.history.length),
        (∀ c b, md (itemId (items.get ⟨i, h1⟩)) = .resp c b → c ≠ 200 →
           d.history.get ⟨i, h2⟩ = items.get ⟨i, h1⟩ ∧
           (d.history.get ⟨i, h2⟩).stats = none) ∧
        (∀ b r0 rs p, md (itemId (items.get ⟨i, h1⟩)) = .resp 200 b →
           b.rounds = some (r0 :: rs) →
           findInTeams pid (r0.teams.getD []) = some p →
           (d.history.get ⟨i, h2⟩).stats ≠ none ∧
           (d.history.get ⟨i, h2⟩).match_id = (items.get ⟨i, h1⟩).match_id ∧
           (d.history.get ⟨i, h2⟩).blob = (items.get ⟨i, h1⟩).blob)) := by
  have hall : ∀ m ∈ items, hasId m = true := fun m hm => (hraw m hm).1
  have hex : ∀ m ∈ items, ∃ e, enrichOne pid (md (itemId m)) m = .ok e := by
    intro m hm
    obtain ⟨c, b, hmd, hwfb⟩ := hwf m hm
    obtain ⟨e, he, -, -⟩ := enrichOne_ok_exists pid c b m hwfb
    exact ⟨e, by rw [hmd]; exact he⟩
  obtain ⟨l, hl⟩ := processMatches_ok_exists pid md items hall hex
  obtain ⟨hlen, hidx⟩ := processMatches_ok_spec pid md items l hall hl
  refine ⟨⟨sb, if sc = 200 then lb.lifetime.getD [] else [], l⟩, ?_, hlen, ?_⟩
  · rw [get_faceit_data_success sb sc lb hb md pid hpid]
    simp [hitems, hl]
  · intro i h1 h2
    have henr := hidx i h1 h2
    constructor
    · intro c b hmd hc
      rw [hmd, enrichOne_non200 pid c b _ hc] at henr
      have heq := (Except.ok.inj henr).symm
      refine ⟨heq, ?_⟩
      rw [heq]
      exact (hraw _ (List.get_mem items i h1)).2
    · intro b r0 rs p hmd hr hp
      rw [hmd, enrichOne_found pid b _ r0 rs p hr hp] at henr
      have heq := (Except.ok.inj henr).symm
      rw [heq]
      exact ⟨by simp, rfl, rfl⟩

/-- C2 (witness): the spec's three-item example with item 2 failing. -/
theorem C2_per_item_degradation_witness :
    ∃ d, get_faceit_data
        ⟨.resp 200 ⟨some "p1", "prof"⟩, .resp 200 ⟨some []⟩,
         .resp 200 ⟨some itemsExample⟩, mdExample⟩ = some d ∧
      d.history.length = 3 := by
  have hwf : ∀ m ∈ itemsExample, ∃ c b, mdExample (itemId m) = .resp c b ∧
      (c = 200 → b.rounds ≠ some []) := by
    intro m hm
    fin_cases hm
    · exact ⟨200, _, rfl, fun _ => by decide⟩
    · exact ⟨404, _, rfl, fun h => absurd h (by decide)⟩
    · exact ⟨200, _, rfl, fun _ => by decide⟩
  obtain ⟨d, hd, hlen, -⟩ :=
    C2_per_item_degradation ⟨some "p1", "prof"⟩ "p1" 200 ⟨some []⟩
      ⟨some itemsExample⟩ itemsExample mdExample rfl rfl (by decide)
      (by decide) hwf
  exact ⟨d, hd, by simpa [itemsExample] using hlen⟩

/-- C3: the secondary aggregator yields the single `none` sentinel — a value,
never an exception — when the search answers non-200, when it answers 200
without a truthy player id, and when any step raises (search, lifetime stats,
history, or a per-match detail, the last discarding the partial history). -/
theorem C3_absent_sentinel (env : FaceitEnv) :
    (env.search = .exn → get_faceit_data env = none) ∧
    (∀ c b, env.search = .resp c b → c ≠ 200 → get_faceit_data env = none) ∧
    (∀ b, env.search = .resp 200 b →
       (b.player_id = none ∨ b.player_id = some "") →
       get_faceit_data env = none) ∧
    (∀ b pid, env.search = .resp 200 b → pyTruthyId b.player_id = some pid →
       env.stats = .exn → get_faceit_data env = none) ∧
    (∀ b pid sc sb2, env.search = .resp 200 b →
       pyTruthyId b.player_id = some pid → env.stats = .resp sc sb2 →
       env.history = .exn → get_faceit_data env = none) ∧
    (∀ b pid sc sb2 hb, env.search = .resp 200 b →
       pyTruthyId b.player_id = some pid → env.stats = .resp sc sb2 →
       env.history = .resp 200 hb →
       processMatches pid env.matchDetail (hb.items.getD []) = .error () →
       get_faceit_data env = none) := by
  refine ⟨?_, ?_, ?_, ?_, ?_, ?_⟩
  · intro h1
    simp [get_faceit_data, h1]
  · intro c b h1 h2
    simp [get_faceit_data, h1, h2]
  · intro b h1 h2
    have he : pyTruthyId b.player_id = none := by
      rcases h2 with h2 | h2 <;> rw [h2] <;> rfl
    simp [get_faceit_data, h1, he]
  · intro b pid h1 h2 h3
    simp [get_faceit_data, h1, h2, h3]
  · intro b pid sc sb2 h1 h2 h3 h4
    simp [get_faceit_data, h1, h2, h3, h4]
  · intro b pid sc sb2 hb h1 h2 h3 h4 h5
    simp [get_faceit_data, h1, h2, h3, h4, h5]

/-- C3 (witness): a 404 on the player search yields the sentinel. -/
theorem C3_absent_sentinel_witness :
    get_faceit_data ⟨.resp 404 ⟨some "p1", "prof"⟩, .exn, .exn, fun _ => .exn⟩
      = none := by
  obtain ⟨-, h2, -, -, -, -⟩ :=
    C3_absent_sentinel ⟨.resp 404 ⟨some "p1", "prof"⟩, .exn, .exn, fun _ => .exn⟩
  exact h2 404 ⟨some "p1", "prof"⟩ rfl (by decide)

/-- C9: on a 200 detail response with a first round, the enrichment hits the
first player equal to the searched id in the flattened `teams[*].players[*]`
order and attaches the derived sub-record: result is the win value iff the
raw `Result` flag is the string "1", score and map come from the first
round's `round_stats` defaulting to "N/A", and kills/deaths/assists come from
the player's own stat block defaulting to "0". -/
theorem C9_first_match_enrichment (pid : String) (m : HistoryItem)
    (b : MatchDetailBody) (r0 : MatchRound) (rs : List MatchRound)
    (p : MatchPlayer)
    (hr : b.rounds = some (r0 :: rs))
    (hp : ((r0.teams.getD []).flatMap (fun t => t.players.getD [])).find?
            (fun q => q.player_id == some pid) = some p) :
    enrichOne pid (.resp 200 b) m = .ok { m with stats := some {
      result := if (p.player_stats.getD emptyPSB).result == some "1"
                then "Venceu" else "Perdeu",
      score := (r0.round_stats.getD emptyRS).score.getD "N/A",
      map := (r0.round_stats.getD emptyRS).map.getD "N/A",
      kills := (p.player_stats.getD emptyPSB).kills.getD "0",
      deaths := (p.player_stats.getD emptyPSB).deaths.getD "0",
      assists := (p.player_stats.getD emptyPSB).assists.getD "0" } } := by
  have hft : findInTeams pid (r0.teams.getD []) = some p := by
    rw [findInTeams_eq_find?]
    exact hp
  exact enrichOne_found pid b m r0 rs p hr hft

/-- C9 (witness): two teams; the searched player sits first on the second
team, wins, with all stat fields present except assists (defaulted). -/
theorem C9_first_match_enrichment_witness :
    enrichOne "p7" (.resp 200 ⟨some [⟨some [
        ⟨some [⟨some "other", some ⟨some "0", some "3", some "9", some "2"⟩⟩]⟩,
        ⟨some [⟨some "p7", some ⟨some "1", some "21", some "12", none⟩⟩,
               ⟨some "p8", none⟩]⟩],
      some ⟨some "13 / 9", some "de_mirage"⟩⟩]⟩) ⟨some "m9", "raw", none⟩
      = .ok ⟨some "m9", "raw",
          some ⟨"Venceu", "13 / 9", "de_mirage", "21", "12", "0"⟩⟩ := by
  have h := C9_first_match_enrichment "p7" ⟨some "m9", "raw", none⟩
    ⟨some [⟨some [
        ⟨some [⟨some "other", some ⟨some "0", some "3", some "9", some "2"⟩⟩]⟩,
        ⟨some [⟨some "p7", some ⟨some "1", some "21", some "12", none⟩⟩,
               ⟨some "p8", none⟩]⟩],
      some ⟨some "13 / 9", some "de_mirage"⟩⟩]⟩
    ⟨some [
        ⟨some [⟨some "other", some ⟨some "0", some "3", some "9", some "2"⟩⟩]⟩,
        ⟨some [⟨some "p7", some ⟨some "1", some "21", some "12", none⟩⟩,
               ⟨some "p8", none⟩]⟩],
      some ⟨some "13 / 9", some "de_mirage"⟩⟩ [] 
    ⟨some "p7", some ⟨some "1", some "21", some "12", none⟩⟩ rfl (by decide)
  simpa using h

/-- C10: a successful loop returns exactly the items that carry a truthy
match id, in their original relative order (ids and payloads aligned
index-by-index with the filtered input), and its outcome is unchanged under
any detail oracle that agrees on the kept ids — dropped items trigger no
lookup.  On the aggregator path this filtered list is the output history. -/
theorem C10_missing_id_dropped (pid : String) (md : String → FResp MatchDetailBody)
    (items l : List HistoryItem)
    (hpm : processMatches pid md items = .ok l) :
    l.length = (items.filter hasId).length ∧
    (∀ i (h1 : i < (items.filter hasId).length) (h2 : i < l.length),
      (l.get ⟨i, h2⟩).match_id = ((items.filter hasId).get ⟨i, h1⟩).match_id ∧
      (l.get ⟨i, h2⟩).blob = ((items.filter hasId).get ⟨i, h1⟩).blob) ∧
    (∀ md' : String → FResp MatchDetailBody,
      (∀ m ∈ items, hasId m = true → md' (itemId m) = md (itemId m)) →
      processMatches pid md' items = .ok l) ∧
    (∀ sb sc lb hb, pyTruthyId sb.player_id = some pid → hb.items = some items →
      get_faceit_data ⟨.resp 200 sb, .resp sc lb, .resp 200 hb, md⟩
        = some { profile := sb,
                 stats := if sc = 200 then lb.lifetime.getD [] else [],
                 history := l }) := by
  have hpm0 := hpm
  rw [processMatches_eq_filter] at hpm
  obtain ⟨hlen, hidx⟩ := processMatches_ok_spec pid md (items.filter hasId) l
    (fun m hm => List.of_mem_filter hm) hpm
  refine ⟨hlen, ?_, ?_, ?_⟩
  · intro i h1 h2
    have henr := hidx i h1 h2
    exact enrichOne_ok_fields pid _ _ _ henr
  · intro md' hagree
    rw [processMatches_congr pid md md' items hagree]
    exact hpm0
  · intro sb sc lb hb hpid hitems
    rw [get_faceit_data_success sb sc lb hb md pid hpid]
    simp [hitems, hpm0]

/-- C10 (witness): of three raw items, the first lacks `match_id` and the
second has the falsy empty id; only the third survives. -/
theorem C10_missing_id_dropped_witness :
    (([⟨some "m1", "z", none⟩] : List HistoryItem)).length
      = ((([⟨none, "x", none⟩, ⟨some "", "y", none⟩, ⟨some "m1", "z", none⟩] :
          List HistoryItem).filter hasId)).length := by
  obtain ⟨hlen, -, -, -⟩ :=
    C10_missing_id_dropped "p1" (fun _ => .resp 404 ⟨none⟩)
      [⟨none, "x", none⟩, ⟨some "", "y", none⟩, ⟨some "m1", "z", none⟩]
      [⟨some "m1", "z", none⟩] rfl
  exact hlen
